import Mathlib

/-!
Verification development for the `dns_analyzer` core (`src/dns_analyzer/core.py`).

The Python core is shallowly embedded below:
* Python strings are Lean `String` / `List Char` (the inputs of interest are
  ASCII, so the ASCII fragments of `str.lower`, `str.upper`, `str.strip`,
  `str.isdigit` and `str.split` are modelled);
* the `dns.resolver.Resolver.resolve` call is an external collaborator and is
  modelled as a function parameter `resolve : String → String → Except String
  (List String)` (`.error msg` models a raised exception whose `str` is `msg`);
* the standard-library classifier `ipaddress.ip_address(addr).is_private`
  (used only by the A/AAAA best-practice branch) is likewise external and is
  modelled as a parameter `ipPriv : String → Option Bool`, where `none` models
  a `ValueError` on parsing and `some b` the parsed `is_private` value;
* the `pandas.DataFrame` produced by `run` is modelled as a `List ResultRow`;
  `DataFrame.sort_values(by="Severity", key=..., ascending=False)` is modelled
  by `sortRows`, one fixed permutation that orders rows by severity rank
  descending (pandas' default sort kind leaves the relative order of
  equal-rank rows unspecified, therefore every theorem below uses only
  permutation and membership facts about `sortRows`, which hold for any
  implementation of the severity-descending sort).
-/

namespace DnsAnalyzer

/-! ## ASCII string primitives (models of the Python `str` operations used) -/

/-- Model of `str.lower` on one character (ASCII fragment): `A`..`Z` maps to
`a`..`z`, everything else is unchanged. -/
def lowerC (c : Char) : Char :=
  if 65 ≤ c.toNat ∧ c.toNat ≤ 90 then Char.ofNat (c.toNat + 32) else c

/-- Model of `str.upper` on one character (ASCII fragment). -/
def upperC (c : Char) : Char :=
  if 97 ≤ c.toNat ∧ c.toNat ≤ 122 then Char.ofNat (c.toNat - 32) else c

/-- Whitespace recognised by Python `str.split()` / `str.strip()` (ASCII fragment). -/
def isSpaceC (c : Char) : Bool :=
  c == ' ' || c == '\t' || c == '\n' || c == '\r' || c == '\x0b' || c == '\x0c'

def lowerL (l : List Char) : List Char := l.map lowerC

def upperL (l : List Char) : List Char := l.map upperC

/-- `str.lower` (ASCII fragment). -/
def lowerS (s : String) : String := String.mk (lowerL s.data)

/-- `str.upper` (ASCII fragment). -/
def upperS (s : String) : String := String.mk (upperL s.data)

/-- Does `s` start with `pat`? -/
def startsWithL : List Char → List Char → Bool
  | [], _ => true
  | _ :: _, [] => false
  | p :: ps, c :: cs => p == c && startsWithL ps cs

/-- Python substring containment `pat in s`. -/
def containsL (pat : List Char) : List Char → Bool
  | [] => startsWithL pat []
  | c :: cs => startsWithL pat (c :: cs) || containsL pat cs

/-- Python `pat in s` on `String`. -/
def containsS (pat s : String) : Bool := containsL pat.data s.data

/-- Python `sep.join(pieces)`. -/
def joinSepL (sep : List Char) : List (List Char) → List Char
  | [] => []
  | [x] => x
  | x :: xs => x ++ sep ++ joinSepL sep xs

/-- Python `sep.join(pieces)` on `String`. -/
def joinS (sep : String) (pieces : List String) : String :=
  String.mk (joinSepL sep.data (pieces.map String.data))

/-- Python `str.strip()` (remove leading/trailing whitespace). -/
def stripL (l : List Char) : List Char :=
  ((l.dropWhile isSpaceC).reverse.dropWhile isSpaceC).reverse

/-- The first whitespace-separated token of `l`, i.e. `l.split()[0]` when
`l.split()` is non-empty. -/
def firstTokL (l : List Char) : List Char :=
  (l.dropWhile isSpaceC).takeWhile (fun c => !isSpaceC c)

/-- Python `bool(l.split())`: does the string hold at least one non-space char? -/
def hasTokL (l : List Char) : Bool := !(l.dropWhile isSpaceC).isEmpty

/-- Python `str.isdigit` (ASCII fragment): non-empty and all decimal digits. -/
def isDigitL (l : List Char) : Bool :=
  !l.isEmpty && l.all (fun c => decide (48 ≤ c.toNat ∧ c.toNat ≤ 57))

/-- Python `int(...)` on a string of decimal digits. -/
def digitsToNat (l : List Char) : Nat :=
  l.foldl (fun acc c => acc * 10 + (c.toNat - 48)) 0

/-- Helper for `countOccur`: `skip` characters are still covered by the last
counted occurrence and may not start a new one. -/
def countOccurAux (pat : List Char) : List Char → Nat → Nat
  | [], _ => 0
  | _ :: cs, Nat.succ k => countOccurAux pat cs k
  | c :: cs, 0 =>
    if startsWithL pat (c :: cs) then 1 + countOccurAux pat cs (pat.length - 1)
    else countOccurAux pat cs 0

/-- Python `s.count(pat)`: number of non-overlapping occurrences of `pat`,
scanning left to right. -/
def countOccur (pat s : List Char) : Nat := countOccurAux pat s 0

/-- Helper for `afterLast`: the suffix after the last occurrence of `pat`,
or `none` when `pat` does not occur. -/
def afterLastAux (pat : List Char) : List Char → Option (List Char)
  | [] => none
  | c :: cs =>
    match afterLastAux pat cs with
    | some r => some r
    | none => if startsWithL pat (c :: cs) then some (List.drop pat.length (c :: cs)) else none

/-- Python `s.split(pat)[-1]` for non-empty `pat`: the suffix of `s` after the
last occurrence of `pat` (the whole of `s` when `pat` does not occur). -/
def afterLast (pat s : List Char) : List Char := (afterLastAux pat s).getD s

/-- Python `len(set(l))`: the number of distinct values in `l`. -/
def distinctCount : List Nat → Nat
  | [] => 0
  | x :: xs => (if xs.contains x then 0 else 1) + distinctCount xs

/-! ## Severity (from `_severity_rank`, core.py lines 128-129) -/

/-- `_severity_rank`: `{"CRITICAL": 4, "WARN": 3, "INFO": 2, "OK": 1, "": 0}.get(level, 0)`. -/
def severityRank (level : String) : Nat :=
  if level = "CRITICAL" then 4
  else if level = "WARN" then 3
  else if level = "INFO" then 2
  else if level = "OK" then 1
  else 0

/-- Python `max(a, b, key=_severity_rank)`: `b` only when its rank is strictly
larger (Python `max` keeps the first argument on ties). -/
def promote (a b : String) : String :=
  if severityRank a < severityRank b then b else a

/-! ## Data model (from `DNSAnalyzer.__init__`, core.py lines 38-52) -/

/-- The analyzer state relevant to `run`: the constructor fields
`self.domains`, `self.dkim_selectors` and `self.enable_best_practices`
(the `resolver` object is the external collaborator, passed to `run` below;
`self.results` is a pure output cache and is not modelled). -/
structure DNSAnalyzer where
  domains : List String
  dkimSelectors : List String
  enableBestPractices : Bool
deriving DecidableEq

/-- `DNSAnalyzer.DEFAULT_RECORD_TYPES`. -/
def DEFAULT_RECORD_TYPES : List String :=
  ["A", "AAAA", "MX", "NS", "CNAME", "TXT", "SPF", "DMARC", "DKIM", "BIMI", "SOA", "CAA"]

/-- `DNSAnalyzer.__init__`: raises `ValueError` on an empty domain list
(Python truthiness `if not domains`), otherwise stores the fields, with
`dkim_selectors or []` turning `None` (and `[]`) into `[]`. -/
def mkDNSAnalyzer (domains : List String) (dkimSelectors : Option (List String))
    (enableBestPractices : Bool) : Except String DNSAnalyzer :=
  if domains.isEmpty then Except.error "La lista domini non può essere vuota."
  else Except.ok
    { domains := domains
      dkimSelectors := dkimSelectors.getD []
      enableBestPractices := enableBestPractices }

/-! ## Best-practice rule engine (`_check_best_practices`, core.py lines 132-234) -/

/-- The priority list of the MX branch (core.py line 212):
`[int(v.split()[0]) for v in values if v.split() and v.split()[0].isdigit()]`. -/
def mxPriorities (values : List String) : List Nat :=
  (values.filter (fun v => hasTokL v.data && isDigitL (firstTokL v.data))).map
    (fun v => digitsToNat (firstTokL v.data))

/-- `val.split("p=")[-1].split(";")[0].strip()` (core.py line 180). -/
def dkimKeyPart (v : String) : String :=
  String.mk (stripL ((afterLast "p=".data v.data).takeWhile (fun c => !(c == ';'))))

/-- `_check_best_practices(record_type, values) -> (severity, "; ".join(issues))`.
`ipPriv` models `ipaddress.ip_address(addr).is_private` (`none` = `ValueError`).
State threading mirrors the Python statement order: `acc` carries the mutable
pair `(severity, issues)`. -/
def checkBestPractices (ipPriv : String → Option Bool) (recordType : String)
    (values : List String) : String × String :=
  let combined := lowerS (joinS " | " values)
  let p : String × List String :=
    if recordType = "SPF" then
      let includes := countOccur "include:".data combined.data
      let acc := if includes > 10 then
        ("WARN", ["SPF con " ++ toString includes ++ " include (possibili troppe query)"])
        else ("OK", [])
      let acc := if containsS "all" combined &&
          !(containsS "-all" combined || containsS "~all" combined || containsS "?all" combined)
        then (promote acc.1 "WARN", acc.2 ++ ["SPF senza suffisso -all/~all/?all"]) else acc
      let acc := if containsS "include:*" combined then
        ("CRITICAL", acc.2 ++ ["SPF usa include:* (wildcard)"]) else acc
      values.foldl (fun acc val =>
        if val.length > 255 then
          (promote acc.1 "WARN", acc.2 ++ ["Record SPF molto lungo (>255 caratteri)"])
        else acc) acc
    else if recordType = "DMARC" then
      let acc : String × List String := ("OK", [])
      let acc := if !containsS "v=dmarc1" combined then
        ("CRITICAL", acc.2 ++ ["DMARC non valido (manca v=DMARC1)"]) else acc
      let acc := if containsS "p=none" combined then
        (promote acc.1 "WARN", acc.2 ++ ["DMARC policy=none (protezione debole)"]) else acc
      let acc := if !(containsS "rua=" combined || containsS "ruf=" combined) then
        (promote acc.1 "INFO", acc.2 ++ ["Nessun indirizzo di report (rua/ruf)"]) else acc
      if values.length > 1 then
        (promote acc.1 "CRITICAL", acc.2 ++ ["DMARC duplicato (più record)"]) else acc
    else if recordType = "DKIM" then
      let acc : String × List String := ("OK", [])
      let acc := if !containsS "p=" combined then
        ("CRITICAL", acc.2 ++ ["DKIM non valido (manca p=)"]) else acc
      let acc := if !containsS "k=rsa" combined then
        (promote acc.1 "WARN", acc.2 ++ ["Record DKIM senza k=rsa"]) else acc
      let acc := values.foldl (fun acc val =>
        if containsS "p=" val then
          let keyPart := dkimKeyPart val
          if keyPart.length < 160 then
            ("CRITICAL", acc.2 ++ ["Chiave DKIM molto corta (<1024 bit?)"])
          else if keyPart.length < 300 then
            (promote acc.1 "WARN", acc.2 ++ ["Chiave DKIM <2048 bit"])
          else acc
        else acc) acc
      if values.length > 1 then
        (promote acc.1 "WARN", acc.2 ++ ["Selettore DKIM duplicato"]) else acc
    else if recordType = "BIMI" then
      let acc : String × List String := ("OK", [])
      let acc := if !containsS "v=bimi1" combined then
        ("CRITICAL", acc.2 ++ ["BIMI non valido (manca v=BIMI1)"]) else acc
      let acc := if !containsS "l=" combined then
        (promote acc.1 "WARN", acc.2 ++ ["Campo l= mancante (logo SVG)"]) else acc
      let acc := if !containsS "a=" combined then
        (promote acc.1 "WARN", acc.2 ++ ["Campo a= mancante (VMC/certificato)"]) else acc
      if values.length > 1 then
        (promote acc.1 "WARN", acc.2 ++ ["Record BIMI duplicato"]) else acc
    else if recordType = "MX" then
      if values.isEmpty then ("CRITICAL", ["Nessun record MX trovato"])
      else
        let prio := mxPriorities values
        if distinctCount prio = 1 ∧ prio.length > 1 then
          (promote "OK" "WARN", ["Tutti i record MX hanno la stessa priorità"])
        else ("OK", [])
    else if recordType = "A" ∨ recordType = "AAAA" then
      values.foldl (fun acc addr =>
        match ipPriv addr with
        | some true => (promote acc.1 "WARN", acc.2 ++ ["Indirizzo " ++ addr ++ " privato"])
        | _ => acc) ("OK", [])
    else if recordType = "NS" then
      if values.length < 2 then (promote "OK" "WARN", ["Solo un nameserver configurato"])
      else ("OK", [])
    else ("OK", [])
  (p.1, joinS "; " p.2)

/-! ## Result rows and query collection (`_query_and_collect`, `_err`) -/

/-- One row of the output `DataFrame` (columns of core.py lines 278-300). -/
structure ResultRow where
  Domain : String
  RecordType : String
  Selector : String
  Value : String
  Issues : String
  Severity : String
deriving DecidableEq

/-- The validity filters of core.py lines 255-265 (identity for other types). -/
def normalizeRecords (logicalType : String) (records : List String) : List String :=
  if logicalType = "SPF" then records.filter (fun rec => containsS "v=spf1" (lowerS rec))
  else if logicalType = "DMARC" then records.filter (fun rec => containsS "v=DMARC1" rec)
  else if logicalType = "BIMI" then
    records.filter (fun rec => containsS "v=BIMI1" (upperS rec) || containsS "v=bimi1" (lowerS rec))
  else records

/-- `_query_and_collect` (core.py lines 240-300), producing the single row it
appends to `out`. The `try`/`except` around the resolver call is the
`Except` match; everything after a successful `resolve` is total. -/
def queryAndCollect (a : DNSAnalyzer) (resolve : String → String → Except String (List String))
    (ipPriv : String → Option Bool) (domain queryDomain rtype logicalType : String)
    (selector : Option String) : ResultRow :=
  match resolve queryDomain rtype with
  | Except.error exc =>
    { Domain := domain, RecordType := logicalType, Selector := selector.getD ""
      Value := exc, Issues := "Errore di lookup"
      Severity := if a.enableBestPractices then "CRITICAL" else "" }
  | Except.ok rawRecords =>
    let records := normalizeRecords logicalType rawRecords
    let sevDetails :=
      if a.enableBestPractices then checkBestPractices ipPriv logicalType records
      else ("", "")
    let sevDetailsRecords :=
      if (logicalType = "SPF" ∨ logicalType = "DMARC" ∨ logicalType = "BIMI") ∧ records = [] then
        let details := "Nessun record " ++ logicalType ++ " valido"
        ((if a.enableBestPractices then "CRITICAL" else ""), details, [details])
      else (sevDetails.1, sevDetails.2, records)
    { Domain := domain, RecordType := logicalType, Selector := selector.getD ""
      Value := joinS "|" sevDetailsRecords.2.2
      Issues := if sevDetailsRecords.1 = "" ∨ sevDetailsRecords.1 = "OK" then ""
                else sevDetailsRecords.2.1
      Severity := sevDetailsRecords.1 }

/-- `_err(domain, "DKIM", "Nessun selettore DKIM fornito")` (core.py lines 69, 303-312). -/
def errRow (domain logicalType msg : String) : ResultRow :=
  { Domain := domain, RecordType := logicalType, Selector := ""
    Value := msg, Issues := msg, Severity := "CRITICAL" }

/-! ## The `run` dispatch loop (core.py lines 55-124) -/

/-- The rows appended for one `(domain, rtype)` iteration of the nested loop in
`run` (core.py lines 66-116): the DKIM branch expands to one query per
selector (or one synthetic error row when no selector is configured), the
DMARC/SPF/BIMI branches derive the query name and use physical type TXT, and
every other type queries the domain itself with its own type. -/
def perTypeRows (a : DNSAnalyzer) (resolve : String → String → Except String (List String))
    (ipPriv : String → Option Bool) (domain rtype : String) : List ResultRow :=
  if rtype = "DKIM" then
    if a.dkimSelectors.isEmpty then [errRow domain "DKIM" "Nessun selettore DKIM fornito"]
    else a.dkimSelectors.map (fun selector =>
      queryAndCollect a resolve ipPriv domain (selector ++ "._domainkey." ++ domain)
        "TXT" "DKIM" (some selector))
  else if rtype = "DMARC" then
    [queryAndCollect a resolve ipPriv domain ("_dmarc." ++ domain) "TXT" "DMARC" none]
  else if rtype = "SPF" then
    [queryAndCollect a resolve ipPriv domain domain "TXT" "SPF" none]
  else if rtype = "BIMI" then
    [queryAndCollect a resolve ipPriv domain ("default._bimi." ++ domain) "TXT" "BIMI" none]
  else
    [queryAndCollect a resolve ipPriv domain domain rtype rtype none]

/-- The full accumulation list `out` of `run`, in dispatch order. -/
def dispatchRows (a : DNSAnalyzer) (resolve : String → String → Except String (List String))
    (ipPriv : String → Option Bool) (recordTypes : List String) : List ResultRow :=
  a.domains.flatMap (fun domain =>
    recordTypes.flatMap (fun rtype => perTypeRows a resolve ipPriv domain rtype))

/-- The record-type list actually iterated by `run` (core.py lines 59-61):
`selected_record_types or DEFAULT_RECORD_TYPES`, narrowed to the
security-relevant subset when best practices are on and the caller passed no
(or an empty, hence falsy) selection. -/
def effectiveTypes (a : DNSAnalyzer) (selected : Option (List String)) : List String :=
  let recordTypes :=
    match selected with
    | none => DEFAULT_RECORD_TYPES
    | some l => if l.isEmpty then DEFAULT_RECORD_TYPES else l
  if a.enableBestPractices &&
      (match selected with | none => true | some l => l.isEmpty) then
    ["SPF", "DMARC", "DKIM", "BIMI", "MX", "A", "AAAA", "NS"]
  else recordTypes

/-- Ascending (by severity rank) stable insertion of one row. -/
def insAsc (r : ResultRow) : List ResultRow → List ResultRow
  | [] => [r]
  | x :: xs =>
    if severityRank r.Severity ≤ severityRank x.Severity then r :: x :: xs
    else x :: insAsc r xs

/-- Stable ascending insertion sort by severity rank. -/
def sortAsc : List ResultRow → List ResultRow
  | [] => []
  | x :: xs => insAsc x (sortAsc xs)

/-- Model of `df.sort_values(by="Severity", key=..., ascending=False)`
(core.py lines 120-122): some permutation of the rows ordered by severity
rank descending. The library's default sort kind fixes no relative order for
equal-rank rows, so every theorem below uses only permutation facts about
this function. -/
def sortRows (rows : List ResultRow) : List ResultRow := (sortAsc rows).reverse

/-- `DNSAnalyzer.run(selected_record_types)` (core.py lines 55-124),
returning the sorted row list of the result `DataFrame`. -/
def run (a : DNSAnalyzer) (resolve : String → String → Except String (List String))
    (ipPriv : String → Option Bool) (selected : Option (List String)) : List ResultRow :=
  sortRows (dispatchRows a resolve ipPriv (effectiveTypes a selected))

/-! ## Helper lemmas -/

theorem insAsc_perm (r : ResultRow) (l : List ResultRow) : (insAsc r l).Perm (r :: l) := by
  induction l with
  | nil => exact List.Perm.refl _
  | cons x xs ih =>
    unfold insAsc
    by_cases h : severityRank r.Severity ≤ severityRank x.Severity
    · simp only [if_pos h]
      exact List.Perm.refl _
    · simp only [if_neg h]
      exact (ih.cons x).trans (List.Perm.swap r x xs)

theorem sortAsc_perm (l : List ResultRow) : (sortAsc l).Perm l := by
  induction l with
  | nil => exact List.Perm.refl _
  | cons x xs ih => exact (insAsc_perm x (sortAsc xs)).trans (ih.cons x)

theorem sortRows_perm (l : List ResultRow) : (sortRows l).Perm l :=
  (List.reverse_perm (sortAsc l)).trans (sortAsc_perm l)

theorem run_perm_dispatch (a : DNSAnalyzer)
    (resolve : String → String → Except String (List String))
    (ipPriv : String → Option Bool) (selected : Option (List String)) :
    (run a resolve ipPriv selected).Perm
      (dispatchRows a resolve ipPriv (effectiveTypes a selected)) :=
  sortRows_perm _

theorem countP_flatMap {α : Type} (p : ResultRow → Bool) (l : List α)
    (f : α → List ResultRow) :
    ((l.flatMap f).countP p) = (l.map (fun x => (f x).countP p)).sum := by
  induction l with
  | nil => simp
  | cons x xs ih => simp [List.flatMap_cons, List.countP_append, ih]

theorem length_flatMap {α : Type} (l : List α) (f : α → List ResultRow) :
    (l.flatMap f).length = (l.map (fun x => (f x).length)).sum := by
  induction l with
  | nil => simp
  | cons x xs ih => simp [List.flatMap_cons, ih]

theorem sum_map_ite_count (l : List String) (t : String) (A : Nat) :
    (l.map (fun x => if x = t then A else 0)).sum = l.count t * A := by
  induction l with
  | nil => simp
  | cons x xs ih =>
    by_cases h : x = t
    · simp [h, ih, List.count_cons, Nat.add_mul, Nat.add_comm]
    · simp [h, ih, List.count_cons, Ne.symm h]

theorem queryAndCollect_error (a : DNSAnalyzer)
    (resolve : String → String → Except String (List String))
    (ipPriv : String → Option Bool) (domain queryDomain rtype logicalType msg : String)
    (selector : Option String) (h : resolve queryDomain rtype = Except.error msg) :
    queryAndCollect a resolve ipPriv domain queryDomain rtype logicalType selector =
      { Domain := domain, RecordType := logicalType, Selector := selector.getD ""
        Value := msg, Issues := "Errore di lookup"
        Severity := if a.enableBestPractices then "CRITICAL" else "" } := by
  unfold queryAndCollect
  rw [h]

theorem queryAndCollect_Domain (a : DNSAnalyzer)
    (resolve : String → String → Except String (List String))
    (ipPriv : String → Option Bool) (domain queryDomain rtype logicalType : String)
    (selector : Option String) :
    (queryAndCollect a resolve ipPriv domain queryDomain rtype logicalType selector).Domain
      = domain := by
  unfold queryAndCollect
  cases resolve queryDomain rtype <;> rfl

theorem queryAndCollect_RecordType (a : DNSAnalyzer)
    (resolve : String → String → Except String (List String))
    (ipPriv : String → Option Bool) (domain queryDomain rtype logicalType : String)
    (selector : Option String) :
    (queryAndCollect a resolve ipPriv domain queryDomain rtype logicalType selector).RecordType
      = logicalType := by
  unfold queryAndCollect
  cases resolve queryDomain rtype <;> rfl

theorem queryAndCollect_Selector (a : DNSAnalyzer)
    (resolve : String → String → Except String (List String))
    (ipPriv : String → Option Bool) (domain queryDomain rtype logicalType : String)
    (selector : Option String) :
    (queryAndCollect a resolve ipPriv domain queryDomain rtype logicalType selector).Selector
      = selector.getD "" := by
  unfold queryAndCollect
  cases resolve queryDomain rtype <;> rfl

/-- Statement-level reading of the per-branch query names of `run`
(core.py lines 81-116) for the non-DKIM logical types. -/
def queryNameOf (domain rtype : String) : String :=
  if rtype = "DMARC" then "_dmarc." ++ domain
  else if rtype = "SPF" then domain
  else if rtype = "BIMI" then "default._bimi." ++ domain
  else domain

/-- The physical query type `run` uses for a non-DKIM logical type. -/
def physTypeOf (rtype : String) : String :=
  if rtype = "DMARC" ∨ rtype = "SPF" ∨ rtype = "BIMI" then "TXT" else rtype

/-- Statement-level measure: how many queries one `(domain, rtype)` loop
iteration dispatches (equivalently, how many rows it appends). -/
def queriesFor (a : DNSAnalyzer) (rtype : String) : Nat :=
  if rtype = "DKIM" then (if a.dkimSelectors.isEmpty then 1 else a.dkimSelectors.length)
  else 1

theorem perTypeRows_singleton (a : DNSAnalyzer)
    (resolve : String → String → Except String (List String))
    (ipPriv : String → Option Bool) (domain rtype : String) (h : rtype ≠ "DKIM") :
    perTypeRows a resolve ipPriv domain rtype =
      [queryAndCollect a resolve ipPriv domain (queryNameOf domain rtype)
        (physTypeOf rtype) rtype none] := by
  unfold perTypeRows queryNameOf physTypeOf
  by_cases h2 : rtype = "DMARC" <;> by_cases h3 : rtype = "SPF" <;>
    by_cases h4 : rtype = "BIMI" <;> simp_all

theorem perTypeRows_length (a : DNSAnalyzer)
    (resolve : String → String → Except String (List String))
    (ipPriv : String → Option Bool) (domain rtype : String) :
    (perTypeRows a resolve ipPriv domain rtype).length = queriesFor a rtype := by
  unfold perTypeRows queriesFor
  split_ifs <;> simp_all

theorem perTypeRows_Domain (a : DNSAnalyzer)
    (resolve : String → String → Except String (List String))
    (ipPriv : String → Option Bool) (domain rtype : String) (row : ResultRow)
    (h : row ∈ perTypeRows a resolve ipPriv domain rtype) : row.Domain = domain := by
  unfold perTypeRows at h
  split_ifs at h with h1 h2
  · simp only [List.mem_singleton] at h
    rw [h]; rfl
  · rcases List.mem_map.mp h with ⟨s, _, rfl⟩
    exact queryAndCollect_Domain ..
  all_goals
    simp only [List.mem_singleton] at h
    rw [h]
    exact queryAndCollect_Domain ..

theorem perTypeRows_ne_nil (a : DNSAnalyzer)
    (resolve : String → String → Except String (List String))
    (ipPriv : String → Option Bool) (domain rtype : String) :
    perTypeRows a resolve ipPriv domain rtype ≠ [] := by
  intro hnil
  have hlen := perTypeRows_length a resolve ipPriv domain rtype
  rw [hnil] at hlen
  unfold queriesFor at hlen
  split_ifs at hlen with h1 h2
  · exact one_ne_zero hlen.symm
  · simp only [List.isEmpty_iff] at h2
    exact h2 (List.length_eq_zero.mp hlen.symm)
  · exact one_ne_zero hlen.symm

theorem run_length_eq (a : DNSAnalyzer)
    (resolve : String → String → Except String (List String))
    (ipPriv : String → Option Bool) (selected : Option (List String)) :
    (run a resolve ipPriv selected).length =
      a.domains.length * ((effectiveTypes a selected).map (queriesFor a)).sum := by
  rw [(run_perm_dispatch a resolve ipPriv selected).length_eq]
  unfold dispatchRows
  rw [length_flatMap]
  have hinner : ∀ d : String,
      ((effectiveTypes a selected).flatMap
        (fun rtype => perTypeRows a resolve ipPriv d rtype)).length
      = ((effectiveTypes a selected).map (queriesFor a)).sum := by
    intro d
    rw [length_flatMap]
    congr 1
    exact List.map_congr_left fun rt _ => perTypeRows_length a resolve ipPriv d rt
  calc (a.domains.map (fun d =>
          ((effectiveTypes a selected).flatMap
            (fun rtype => perTypeRows a resolve ipPriv d rtype)).length)).sum
      = (a.domains.map (fun _ => ((effectiveTypes a selected).map (queriesFor a)).sum)).sum := by
        congr 1
        exact List.map_congr_left fun d _ => hinner d
    _ = a.domains.length * ((effectiveTypes a selected).map (queriesFor a)).sum := by
        rw [List.map_const', List.sum_replicate, smul_eq_mul]

theorem mem_run_iff (a : DNSAnalyzer)
    (resolve : String → String → Except String (List String))
    (ipPriv : String → Option Bool) (selected : Option (List String)) (row : ResultRow) :
    row ∈ run a resolve ipPriv selected ↔
      ∃ d ∈ a.domains, ∃ rt ∈ effectiveTypes a selected,
        row ∈ perTypeRows a resolve ipPriv d rt := by
  rw [(run_perm_dispatch a resolve ipPriv selected).mem_iff]
  unfold dispatchRows
  simp [List.mem_flatMap]

theorem effectiveTypes_some_nil (a : DNSAnalyzer) :
    effectiveTypes a (some []) = effectiveTypes a none := by
  unfold effectiveTypes
  simp

theorem effectiveTypes_ne_nil (a : DNSAnalyzer) (selected : Option (List String)) :
    effectiveTypes a selected ≠ [] := by
  unfold effectiveTypes
  split_ifs with h
  · simp
  · match selected with
    | none => simp [DEFAULT_RECORD_TYPES]
    | some l =>
      by_cases hl : l.isEmpty
      · simp [hl, DEFAULT_RECORD_TYPES]
      · simp only [if_neg hl]
        exact fun hnil => by simp [hnil] at hl

theorem startsWithL_map (f : Char → Char) (pat : List Char) :
    ∀ l : List Char, startsWithL pat l = true →
      startsWithL (pat.map f) (l.map f) = true := by
  induction pat with
  | nil => intro l _; rfl
  | cons p ps ih =>
    intro l h
    cases l with
    | nil => exact absurd h (by simp [startsWithL])
    | cons c cs =>
      simp only [startsWithL, Bool.and_eq_true, beq_iff_eq] at h
      simp only [List.map_cons, startsWithL, Bool.and_eq_true, beq_iff_eq]
      exact ⟨congrArg f h.1, ih cs h.2⟩

theorem containsL_map (f : Char → Char) (pat : List Char) :
    ∀ l : List Char, containsL pat l = true →
      containsL (pat.map f) (l.map f) = true := by
  intro l
  induction l with
  | nil =>
    intro h
    exact startsWithL_map f pat [] h
  | cons c cs ih =>
    intro h
    simp only [containsL, Bool.or_eq_true] at h
    rcases h with h | h
    · simp only [List.map_cons, containsL, Bool.or_eq_true]
      exact Or.inl (by simpa using startsWithL_map f pat (c :: cs) h)
    · simp only [List.map_cons, containsL, Bool.or_eq_true]
      exact Or.inr (ih h)

theorem containsS_lowerS_p (v : String) (h : containsS "p=" v = true) :
    containsS "p=" (lowerS v) = true := by
  have hmap := containsL_map lowerC "p=".data v.data h
  have hpat : ("p=".data.map lowerC) = "p=".data := by decide
  rw [hpat] at hmap
  exact hmap

theorem toNat_ofNat_small {n : Nat} (h : n < 55296) : (Char.ofNat n).toNat = n := by
  rw [Char.ofNat, dif_pos (Or.inl h)]
  simp [Char.ofNatAux, Char.toNat, UInt32.toNat, BitVec.toNat_ofNatLt]

theorem upperC_ne_v (c : Char) : ¬ upperC c = 'v' := by
  unfold upperC
  split_ifs with h
  · intro he
    have hn := congrArg Char.toNat he
    rw [toNat_ofNat_small (by omega)] at hn
    have hv : ('v').toNat = 118 := by decide
    omega
  · intro he
    have hn := congrArg Char.toNat he
    have hv : ('v').toNat = 118 := by decide
    exact h (by omega)

theorem startsWithL_vBIMI_upperL (l : List Char) :
    startsWithL "v=BIMI1".data (upperL l) = false := by
  cases l with
  | nil => rfl
  | cons c cs =>
    show (('v' == upperC c) && startsWithL "=BIMI1".data (upperL cs)) = false
    have : ('v' == upperC c) = false := by
      simp only [beq_eq_false_iff_ne, ne_eq]
      exact fun he => upperC_ne_v c he.symm
    rw [this, Bool.false_and]

theorem containsL_vBIMI_upperL (l : List Char) :
    containsL "v=BIMI1".data (upperL l) = false := by
  induction l with
  | nil => rfl
  | cons c cs ih =>
    show (startsWithL "v=BIMI1".data (upperL (c :: cs)) || containsL "v=BIMI1".data (upperL cs))
      = false
    rw [startsWithL_vBIMI_upperL, ih]
    rfl

theorem bimiKeep_eq_lower (rec : String) :
    (containsS "v=BIMI1" (upperS rec) || containsS "v=bimi1" (lowerS rec))
      = containsS "v=bimi1" (lowerS rec) := by
  have : containsS "v=BIMI1" (upperS rec) = false := containsL_vBIMI_upperL rec.data
  rw [this, Bool.false_or]

theorem distinctCount_all_eq (l : List Nat) (q : Nat) (hne : l ≠ [])
    (hall : ∀ p ∈ l, p = q) : distinctCount l = 1 := by
  induction l with
  | nil => exact absurd rfl hne
  | cons x xs ih =>
    have hx : x = q := hall x (List.mem_cons_self x xs)
    cases xs with
    | nil => simp [distinctCount]
    | cons y ys =>
      have hy : y = q := hall y (by simp)
      have hmem : (y :: ys).contains x := by
        simp [hx, hy, List.contains_cons]
      unfold distinctCount
      rw [hmem]
      simpa using ih (by simp) (fun p hp => hall p (List.mem_cons_of_mem x hp))

theorem perTypeRows_RecordType (a : DNSAnalyzer)
    (resolve : String → String → Except String (List String))
    (ipPriv : String → Option Bool) (domain rtype : String) (row : ResultRow)
    (h : row ∈ perTypeRows a resolve ipPriv domain rtype) : row.RecordType = rtype := by
  unfold perTypeRows at h
  split_ifs at h with h1 h2
  · simp only [List.mem_singleton] at h
    rw [h, h1]; rfl
  · rcases List.mem_map.mp h with ⟨s, _, rfl⟩
    rw [queryAndCollect_RecordType, h1]
  all_goals
    simp only [List.mem_singleton] at h
    rw [h, queryAndCollect_RecordType]
    try simp_all

theorem countP_perTypeRows_pair (a : DNSAnalyzer)
    (resolve : String → String → Except String (List String))
    (ipPriv : String → Option Bool) (d rt d' rt' : String) (h : rt ≠ "DKIM") :
    (perTypeRows a resolve ipPriv d' rt').countP
        (fun row => row.Domain == d && row.RecordType == rt)
      = if d' = d ∧ rt' = rt then 1 else 0 := by
  by_cases hdk : rt' = "DKIM"
  · have hz : (perTypeRows a resolve ipPriv d' rt').countP
        (fun row => row.Domain == d && row.RecordType == rt) = 0 := by
      rw [List.countP_eq_zero]
      intro row hrow
      have htype := perTypeRows_RecordType a resolve ipPriv d' rt' row hrow
      simp only [Bool.and_eq_true, beq_iff_eq, not_and]
      intro _
      rw [htype, hdk]
      exact fun he => h he.symm
    rw [hz, if_neg]
    rintro ⟨-, hrr⟩
    exact h (hdk ▸ hrr).symm
  · rw [perTypeRows_singleton a resolve ipPriv d' rt' hdk]
    simp only [List.countP_cons, List.countP_nil, queryAndCollect_Domain,
      queryAndCollect_RecordType, Nat.zero_add]
    by_cases h1 : d' = d <;> by_cases h2 : rt' = rt <;> simp [h1, h2]

theorem countP_perTypeRows_dkim_sel (a : DNSAnalyzer)
    (resolve : String → String → Except String (List String))
    (ipPriv : String → Option Bool) (d s d' rt' : String)
    (hsel : ¬ a.dkimSelectors.isEmpty) :
    (perTypeRows a resolve ipPriv d' rt').countP
        (fun row => row.Domain == d && row.RecordType == "DKIM" && row.Selector == s)
      = if d' = d ∧ rt' = "DKIM" then a.dkimSelectors.count s else 0 := by
  by_cases hdk : rt' = "DKIM"
  · subst hdk
    unfold perTypeRows
    rw [if_pos rfl, if_neg hsel, List.countP_map]
    by_cases h1 : d' = d
    · rw [if_pos ⟨h1, rfl⟩]
      subst h1
      have : ∀ sel : String,
          ((queryAndCollect a resolve ipPriv d' (sel ++ "._domainkey." ++ d')
              "TXT" "DKIM" (some sel)).Domain == d' &&
            (queryAndCollect a resolve ipPriv d' (sel ++ "._domainkey." ++ d')
              "TXT" "DKIM" (some sel)).RecordType == "DKIM" &&
            (queryAndCollect a resolve ipPriv d' (sel ++ "._domainkey." ++ d')
              "TXT" "DKIM" (some sel)).Selector == s) = (sel == s) := by
        intro sel
        rw [queryAndCollect_Domain, queryAndCollect_RecordType, queryAndCollect_Selector]
        simp
      rw [List.countP_congr (fun sel _ => by rw [Function.comp_apply, this sel])]
      rw [List.count_eq_countP]
    · rw [if_neg (fun hc => h1 hc.1), List.countP_eq_zero]
      intro sel _
      rw [Function.comp_apply, queryAndCollect_Domain, queryAndCollect_RecordType,
        queryAndCollect_Selector]
      simp [h1]
  · rw [if_neg (fun hc => hdk hc.2), List.countP_eq_zero]
    intro row hrow
    have htype := perTypeRows_RecordType a resolve ipPriv d' rt' row hrow
    simp only [Bool.and_eq_true, beq_iff_eq]
    rintro ⟨⟨-, hdd⟩, -⟩
    exact hdk (htype.symm.trans hdd)

theorem countP_perTypeRows_dkim_nosel (a : DNSAnalyzer)
    (resolve : String → String → Except String (List String))
    (ipPriv : String → Option Bool) (d d' rt' : String)
    (hsel : a.dkimSelectors.isEmpty) :
    (perTypeRows a resolve ipPriv d' rt').countP
        (fun row => row.Domain == d && row.RecordType == "DKIM")
      = if d' = d ∧ rt' = "DKIM" then 1 else 0 := by
  by_cases hdk : rt' = "DKIM"
  · subst hdk
    unfold perTypeRows
    rw [if_pos rfl, if_pos hsel]
    simp only [List.countP_cons, List.countP_nil, Nat.zero_add, errRow]
    by_cases h1 : d' = d <;> simp [h1]
  · rw [if_neg (fun hc => hdk hc.2), List.countP_eq_zero]
    intro row hrow
    have htype := perTypeRows_RecordType a resolve ipPriv d' rt' row hrow
    simp only [Bool.and_eq_true, beq_iff_eq, not_and]
    intro _ hdd
    exact absurd (htype ▸ hdd) hdk

theorem countP_dispatch (a : DNSAnalyzer)
    (resolve : String → String → Except String (List String))
    (ipPriv : String → Option Bool) (recordTypes : List String)
    (p : ResultRow → Bool) (d rt : String) (C : Nat)
    (hcell : ∀ d' rt', (perTypeRows a resolve ipPriv d' rt').countP p
      = if d' = d ∧ rt' = rt then C else 0) :
    (dispatchRows a resolve ipPriv recordTypes).countP p
      = a.domains.count d * (recordTypes.count rt * C) := by
  unfold dispatchRows
  rw [countP_flatMap]
  have hinner : ∀ d' : String,
      ((recordTypes.flatMap (fun rtype => perTypeRows a resolve ipPriv d' rtype)).countP p)
        = if d' = d then recordTypes.count rt * C else 0 := by
    intro d'
    rw [countP_flatMap]
    calc (recordTypes.map (fun rt' => (perTypeRows a resolve ipPriv d' rt').countP p)).sum
        = (recordTypes.map (fun rt' => if d' = d ∧ rt' = rt then C else 0)).sum := by
          congr 1
          exact List.map_congr_left fun rt' _ => hcell d' rt'
      _ = if d' = d then recordTypes.count rt * C else 0 := by
          by_cases hd : d' = d
          · rw [if_pos hd]
            have hmap2 : (recordTypes.map (fun rt' => if d' = d ∧ rt' = rt then C else 0))
                = recordTypes.map (fun rt' => if rt' = rt then C else 0) :=
              List.map_congr_left fun rt' _ => by simp [hd]
            rw [hmap2]
            exact sum_map_ite_count recordTypes rt C
          · rw [if_neg hd]
            have hmap2 : (recordTypes.map (fun rt' => if d' = d ∧ rt' = rt then C else 0))
                = recordTypes.map (fun _ => 0) :=
              List.map_congr_left fun rt' _ => by simp [hd]
            rw [hmap2]
            simp
  calc (a.domains.map (fun d' =>
        ((recordTypes.flatMap (fun rtype => perTypeRows a resolve ipPriv d' rtype)).countP p))).sum
      = (a.domains.map (fun d' => if d' = d then recordTypes.count rt * C else 0)).sum := by
        congr 1
        exact List.map_congr_left fun d' _ => hinner d'
    _ = a.domains.count d * (recordTypes.count rt * C) :=
        sum_map_ite_count a.domains d (recordTypes.count rt * C)

/-! ## Claims -/

/-- C9: Constructing a DNSAnalyzer with an empty domain list always fails with
the configuration error, for every combination of dkim selectors and the
best-practice flag; with a non-empty domain list construction never raises. -/
theorem C9_empty_domains_config_error (domains : List String)
    (dkimSelectors : Option (List String)) (bp : Bool) :
    mkDNSAnalyzer [] dkimSelectors bp
        = Except.error "La lista domini non può essere vuota."
    ∧ (domains ≠ [] → ∃ a, mkDNSAnalyzer domains dkimSelectors bp = Except.ok a) := by
  constructor
  · rfl
  · intro h
    unfold mkDNSAnalyzer
    rw [if_neg (by simpa [List.isEmpty_iff] using h)]
    exact ⟨_, rfl⟩

/-- Witness for C9 at concrete inputs. -/
theorem C9_empty_domains_config_error_witness :
    (mkDNSAnalyzer [] (some ["selector1"]) true
        = Except.error "La lista domini non può essere vuota.")
    ∧ ∃ a, mkDNSAnalyzer ["example.com"] none false = Except.ok a :=
  ⟨(C9_empty_domains_config_error ["example.com"] (some ["selector1"]) true).1,
    (C9_empty_domains_config_error ["example.com"] none false).2 (by decide)⟩

/-- C10: Calling run with an explicitly passed empty record-type list behaves
exactly like omitting the argument (the defaults apply, narrowed when best
practices are on), and rows are still produced for every domain. -/
theorem C10_empty_selection_like_none (a : DNSAnalyzer)
    (resolve : String → String → Except String (List String))
    (ipPriv : String → Option Bool) :
    run a resolve ipPriv (some []) = run a resolve ipPriv none
    ∧ ∀ d ∈ a.domains, ∃ row ∈ run a resolve ipPriv (some []), row.Domain = d := by
  constructor
  · unfold run
    rw [effectiveTypes_some_nil]
  · intro d hd
    obtain ⟨rt, hrt⟩ :=
      List.exists_mem_of_ne_nil _ (effectiveTypes_ne_nil a (some []))
    obtain ⟨row, hrow⟩ :=
      List.exists_mem_of_ne_nil _ (perTypeRows_ne_nil a resolve ipPriv d rt)
    exact ⟨row, (mem_run_iff a resolve ipPriv (some []) row).mpr ⟨d, hd, rt, hrt, hrow⟩,
      perTypeRows_Domain a resolve ipPriv d rt row hrow⟩

/-- Witness for C10 at concrete inputs. -/
theorem C10_empty_selection_like_none_witness :
    (run ⟨["example.com"], [], false⟩ (fun _ _ => Except.ok ["1.2.3.4"]) (fun _ => none)
        (some [])
      = run ⟨["example.com"], [], false⟩ (fun _ _ => Except.ok ["1.2.3.4"]) (fun _ => none)
        none)
    ∧ ∃ row ∈ run ⟨["example.com"], [], false⟩ (fun _ _ => Except.ok ["1.2.3.4"])
        (fun _ => none) (some []), row.Domain = "example.com" := by
  have h := C10_empty_selection_like_none ⟨["example.com"], [], false⟩
    (fun _ _ => Except.ok ["1.2.3.4"]) (fun _ => none)
  exact ⟨h.1, h.2 "example.com" (by decide)⟩

/-- C2 counterexample: the claim asserts that MX values carrying priorities
10, 10, 20 (two entries share priority 10) must yield at least WARN; the
engine computes severity OK there, because its condition demands that all
parsed priorities be identical. -/
theorem C2_mx_mixed_priorities_counterexample :
    severityRank (checkBestPractices (fun _ => none) "MX"
        ["10 mx1.example.com", "10 mx2.example.com", "20 mx3.example.com"]).1
      < severityRank "WARN" := by decide

/-- C2 amended: with a non-empty MX value list, when at least two entries
have a leading numeric token and every parsed priority is one and the same
value, the resulting severity is at least WARN; entries with a different
parsed priority disable the check. -/
theorem C2_mx_same_priority_warn (ipPriv : String → Option Bool)
    (values : List String) (q : Nat)
    (hlen : 2 ≤ (mxPriorities values).length)
    (hall : ∀ p ∈ mxPriorities values, p = q) :
    severityRank "WARN" ≤ severityRank (checkBestPractices ipPriv "MX" values).1 := by
  have hvne : values ≠ [] := by
    intro h
    rw [h] at hlen
    simp [mxPriorities] at hlen
  have hpne : mxPriorities values ≠ [] := List.ne_nil_of_length_pos (by omega)
  have hdc : distinctCount (mxPriorities values) = 1 :=
    distinctCount_all_eq (mxPriorities values) q hpne hall
  unfold checkBestPractices
  simp only [String.reduceEq, reduceIte]
  rw [if_neg (by simpa [List.isEmpty_iff] using hvne), if_pos ⟨hdc, by omega⟩]
  decide

/-- Witness for C2 (amended) at the spec scenario inputs. -/
theorem C2_mx_same_priority_warn_witness :
    (2 ≤ (mxPriorities ["10 mx1.example.com", "10 mx2.example.com"]).length)
    ∧ severityRank "WARN" ≤ severityRank (checkBestPractices (fun _ => none) "MX"
        ["10 mx1.example.com", "10 mx2.example.com"]).1 :=
  ⟨by decide, C2_mx_same_priority_warn (fun _ => none)
    ["10 mx1.example.com", "10 mx2.example.com"] 10 (by decide) (by decide)⟩

theorem joinS_single (sep x : String) : joinS sep [x] = x := rfl

/-- C7: The DMARC normalizer keeps a raw answer iff it contains the exact
case-sensitive token "v=DMARC1" (so an answer with only "v=dmarc1" is
dropped), while the SPF and BIMI filters test their version tokens on the
lowercased answer, i.e. case-insensitively. -/
theorem C7_dmarc_filter_case_sensitive :
    (∀ (raws : List String) (rec : String),
      rec ∈ normalizeRecords "DMARC" raws ↔ rec ∈ raws ∧ containsS "v=DMARC1" rec = true)
    ∧ normalizeRecords "DMARC" ["v=dmarc1; p=reject"] = []
    ∧ (∀ (raws : List String) (rec : String),
      rec ∈ normalizeRecords "SPF" raws ↔ rec ∈ raws ∧ containsS "v=spf1" (lowerS rec) = true)
    ∧ (∀ (raws : List String) (rec : String),
      rec ∈ normalizeRecords "BIMI" raws ↔
        rec ∈ raws ∧ containsS "v=bimi1" (lowerS rec) = true) := by
  refine ⟨?_, by decide, ?_, ?_⟩
  · intro raws rec
    unfold normalizeRecords
    simp only [String.reduceEq, reduceIte]
    exact List.mem_filter
  · intro raws rec
    unfold normalizeRecords
    simp only [String.reduceEq, reduceIte]
    exact List.mem_filter
  · intro raws rec
    unfold normalizeRecords
    simp only [String.reduceEq, reduceIte]
    rw [List.mem_filter, bimiKeep_eq_lower rec]

/-- Witness for C7 at concrete inputs: an upper-cased SPF answer is kept. -/
theorem C7_dmarc_filter_case_sensitive_witness :
    "V=SPF1 -ALL" ∈ normalizeRecords "SPF" ["V=SPF1 -ALL"] :=
  (C7_dmarc_filter_case_sensitive.2.2.1 ["V=SPF1 -ALL"] "V=SPF1 -ALL").mpr
    ⟨by decide, by decide⟩

/-- C6: For every SPF, DMARC or BIMI query whose validity filtering leaves
zero values, the produced row has the single-element Value marker
"Nessun record (type) valido" and Severity CRITICAL when best practices are
on, else unset — regardless of the severity computed by the rule engine. -/
theorem C6_no_valid_record_marker (a : DNSAnalyzer)
    (resolve : String → String → Except String (List String))
    (ipPriv : String → Option Bool) (domain queryDomain rtype logicalType : String)
    (selector : Option String) (raws : List String)
    (hlt : logicalType = "SPF" ∨ logicalType = "DMARC" ∨ logicalType = "BIMI")
    (hres : resolve queryDomain rtype = Except.ok raws)
    (hfilter : normalizeRecords logicalType raws = []) :
    queryAndCollect a resolve ipPriv domain queryDomain rtype logicalType selector =
      { Domain := domain, RecordType := logicalType, Selector := selector.getD ""
        Value := "Nessun record " ++ logicalType ++ " valido"
        Issues := if a.enableBestPractices then "Nessun record " ++ logicalType ++ " valido"
                  else ""
        Severity := if a.enableBestPractices then "CRITICAL" else "" } := by
  unfold queryAndCollect
  rw [hres]
  simp only [hfilter]
  rw [if_pos ⟨hlt, trivial⟩]
  cases hbp : a.enableBestPractices <;> simp [joinS_single]

/-- Witness for C6 at the spec scenario (DMARC, empty answer, best practices on). -/
theorem C6_no_valid_record_marker_witness :
    queryAndCollect ⟨["example.com"], [], true⟩ (fun _ _ => Except.ok [])
        (fun _ => none) "example.com" "_dmarc.example.com" "TXT" "DMARC" none
      = ⟨"example.com", "DMARC", "", "Nessun record DMARC valido",
          "Nessun record DMARC valido", "CRITICAL"⟩ := by
  rw [C6_no_valid_record_marker ⟨["example.com"], [], true⟩ (fun _ _ => Except.ok [])
    (fun _ => none) "example.com" "_dmarc.example.com" "TXT" "DMARC" none []
    (Or.inr (Or.inl rfl)) rfl (by decide)]
  decide

theorem ite_issues_helper (s d : String) :
    (if s = "" ∨ s = "OK" then "" else d) = "" ∨ ¬(s = "" ∨ s = "OK") := by
  by_cases h : s = "" ∨ s = "OK"
  · exact Or.inl (if_pos h)
  · exact Or.inr h

theorem queryAndCollect_issues_empty (a : DNSAnalyzer)
    (resolve : String → String → Except String (List String))
    (ipPriv : String → Option Bool) (domain queryDomain rtype logicalType : String)
    (selector : Option String) (hok : (resolve queryDomain rtype).isOk = true)
    (hsev : (queryAndCollect a resolve ipPriv domain queryDomain rtype logicalType
        selector).Severity = ""
      ∨ (queryAndCollect a resolve ipPriv domain queryDomain rtype logicalType
        selector).Severity = "OK") :
    (queryAndCollect a resolve ipPriv domain queryDomain rtype logicalType selector).Issues
      = "" := by
  cases hres : resolve queryDomain rtype with
  | error msg =>
    rw [hres] at hok
    simp [Except.isOk, Except.toBool] at hok
  | ok raws =>
    have hd : (queryAndCollect a resolve ipPriv domain queryDomain rtype logicalType
          selector).Issues = ""
        ∨ ¬((queryAndCollect a resolve ipPriv domain queryDomain rtype logicalType
            selector).Severity = ""
          ∨ (queryAndCollect a resolve ipPriv domain queryDomain rtype logicalType
            selector).Severity = "OK") := by
      unfold queryAndCollect
      rw [hres]
      exact ite_issues_helper _ _
    rcases hd with h | h
    · exact h
    · exact absurd hsev h

/-- C4 counterexample: with best practices off, a failed lookup produces a
row whose Severity is unset ("") while its Issues text is the non-empty
lookup-error marker, so the Issues field is not always empty when Severity
is unset or OK. -/
theorem C4_issues_counterexample :
    ∃ row ∈ run ⟨["example.com"], [], false⟩ (fun _ _ => Except.error "boom")
        (fun _ => none) (some ["A"]),
      row.Severity = "" ∧ row.Issues ≠ "" :=
  ⟨⟨"example.com", "A", "", "boom", "Errore di lookup", ""⟩, by decide, rfl, by decide⟩

/-- C4 amended: whenever every resolver call succeeds, every ResultRow
produced by run has an empty Issues field when its Severity is unset ("") or
"OK"; rows recording a resolver failure are the sole exception (they carry
the lookup-error text with Severity unset when best practices are off). -/
theorem C4_issues_empty_when_ok (a : DNSAnalyzer)
    (resolve : String → String → Except String (List String))
    (ipPriv : String → Option Bool) (selected : Option (List String))
    (hok : ∀ q t, (resolve q t).isOk = true) :
    ∀ row ∈ run a resolve ipPriv selected,
      (row.Severity = "" ∨ row.Severity = "OK") → row.Issues = "" := by
  intro row hrow hsev
  rcases (mem_run_iff a resolve ipPriv selected row).mp hrow with ⟨d, _, rt, _, hmem⟩
  unfold perTypeRows at hmem
  split_ifs at hmem with h1 h2
  · simp only [List.mem_singleton] at hmem
    subst hmem
    rcases hsev with h | h <;> simp [errRow] at h
  · rcases List.mem_map.mp hmem with ⟨s, _, rfl⟩
    exact queryAndCollect_issues_empty a resolve ipPriv d _ _ _ _ (hok _ _) hsev
  all_goals
    simp only [List.mem_singleton] at hmem
    subst hmem
    exact queryAndCollect_issues_empty a resolve ipPriv d _ _ _ _ (hok _ _) hsev

/-- Witness for C4 (amended) at concrete inputs: the OK row of the spec's SPF
scenario has an empty Issues field. -/
theorem C4_issues_empty_when_ok_witness :
    (⟨"example.com", "SPF", "", "v=spf1 ~all", "", "OK"⟩ : ResultRow).Issues = "" :=
  C4_issues_empty_when_ok ⟨["example.com"], [], true⟩ (fun _ _ => Except.ok ["v=spf1 ~all"])
    (fun _ => none) (some ["SPF"]) (fun _ _ => rfl)
    ⟨"example.com", "SPF", "", "v=spf1 ~all", "", "OK"⟩ (by decide) (Or.inr rfl)

/-- C5: A dispatched query whose resolver call fails yields a row with the
failure message as Value, the lookup-error marker as Issues and Severity
CRITICAL exactly when best practices are on (unset otherwise); and the row
count of run does not depend on the resolver at all, so a failure aborts no
other query. -/
theorem C5_lookup_failure_rows (a : DNSAnalyzer)
    (resolve : String → String → Except String (List String))
    (ipPriv : String → Option Bool) (selected : Option (List String)) (msg : String) :
    (∀ d rt, d ∈ a.domains → rt ∈ effectiveTypes a selected → rt ≠ "DKIM" →
      resolve (queryNameOf d rt) (physTypeOf rt) = Except.error msg →
      ({ Domain := d, RecordType := rt, Selector := "", Value := msg
         Issues := "Errore di lookup"
         Severity := if a.enableBestPractices then "CRITICAL" else "" } : ResultRow)
        ∈ run a resolve ipPriv selected)
    ∧ (∀ d s, d ∈ a.domains → "DKIM" ∈ effectiveTypes a selected → s ∈ a.dkimSelectors →
      resolve (s ++ "._domainkey." ++ d) "TXT" = Except.error msg →
      ({ Domain := d, RecordType := "DKIM", Selector := s, Value := msg
         Issues := "Errore di lookup"
         Severity := if a.enableBestPractices then "CRITICAL" else "" } : ResultRow)
        ∈ run a resolve ipPriv selected)
    ∧ (∀ (resolve2 : String → String → Except String (List String))
        (ipPriv2 : String → Option Bool),
      (run a resolve ipPriv selected).length = (run a resolve2 ipPriv2 selected).length) := by
  refine ⟨?_, ?_, ?_⟩
  · intro d rt hd hrt hndk hres
    apply (mem_run_iff a resolve ipPriv selected _).mpr
    refine ⟨d, hd, rt, hrt, ?_⟩
    rw [perTypeRows_singleton a resolve ipPriv d rt hndk,
      queryAndCollect_error a resolve ipPriv d _ _ rt msg none hres]
    exact List.mem_singleton.mpr rfl
  · intro d s hd hrt hs hres
    apply (mem_run_iff a resolve ipPriv selected _).mpr
    refine ⟨d, hd, "DKIM", hrt, ?_⟩
    unfold perTypeRows
    rw [if_pos rfl,
      if_neg (by simpa [List.isEmpty_iff] using List.ne_nil_of_mem hs)]
    apply List.mem_map.mpr
    refine ⟨s, hs, ?_⟩
    rw [queryAndCollect_error a resolve ipPriv d _ _ _ msg (some s) hres]
    rfl
  · intro resolve2 ipPriv2
    rw [run_length_eq, run_length_eq]

/-- Witness for C5 at concrete inputs. -/
theorem C5_lookup_failure_rows_witness :
    ({ Domain := "example.com", RecordType := "A", Selector := "", Value := "timeout"
       Issues := "Errore di lookup", Severity := "CRITICAL" } : ResultRow)
      ∈ run ⟨["example.com"], [], true⟩ (fun _ _ => Except.error "timeout")
          (fun _ => none) (some ["A"]) := by
  have h := (C5_lookup_failure_rows ⟨["example.com"], [], true⟩
    (fun _ _ => Except.error "timeout") (fun _ => none) (some ["A"]) "timeout").1
    "example.com" "A" (by decide) (by decide) (by decide) rfl
  exact h

/-- C3: run produces exactly one ResultRow per dispatched query: the row
count equals (number of domains) times the sum over requested types of the
per-type query count (DKIM: one per selector, or one synthetic row when no
selector is configured; every other type: one), and for every domain and
type the matching rows are counted exactly, on success or failure alike. -/
theorem C3_one_row_per_query (a : DNSAnalyzer)
    (resolve : String → String → Except String (List String))
    (ipPriv : String → Option Bool) (selected : Option (List String)) :
    ((run a resolve ipPriv selected).length
      = a.domains.length * ((effectiveTypes a selected).map (queriesFor a)).sum)
    ∧ (∀ d rt, rt ≠ "DKIM" →
      (run a resolve ipPriv selected).countP
          (fun row => row.Domain == d && row.RecordType == rt)
        = a.domains.count d * (effectiveTypes a selected).count rt)
    ∧ (¬ a.dkimSelectors.isEmpty → ∀ d s,
      (run a resolve ipPriv selected).countP
          (fun row => row.Domain == d && row.RecordType == "DKIM" && row.Selector == s)
        = a.domains.count d
            * ((effectiveTypes a selected).count "DKIM" * a.dkimSelectors.count s))
    ∧ (a.dkimSelectors.isEmpty → ∀ d,
      (run a resolve ipPriv selected).countP
          (fun row => row.Domain == d && row.RecordType == "DKIM")
        = a.domains.count d * (effectiveTypes a selected).count "DKIM") := by
  refine ⟨run_length_eq a resolve ipPriv selected, ?_, ?_, ?_⟩
  · intro d rt hndk
    rw [(run_perm_dispatch a resolve ipPriv selected).countP_eq]
    have h := countP_dispatch a resolve ipPriv (effectiveTypes a selected) _ d rt 1
      (fun dd rr => countP_perTypeRows_pair a resolve ipPriv d rt dd rr hndk)
    simpa using h
  · intro hsel d s
    rw [(run_perm_dispatch a resolve ipPriv selected).countP_eq]
    exact countP_dispatch a resolve ipPriv (effectiveTypes a selected) _ d "DKIM"
      (a.dkimSelectors.count s)
      (fun dd rr => countP_perTypeRows_dkim_sel a resolve ipPriv d s dd rr hsel)
  · intro hsel d
    rw [(run_perm_dispatch a resolve ipPriv selected).countP_eq]
    have h := countP_dispatch a resolve ipPriv (effectiveTypes a selected) _ d "DKIM" 1
      (fun dd rr => countP_perTypeRows_dkim_nosel a resolve ipPriv d dd rr hsel)
    simpa using h

/-- Witness for C3 at concrete inputs. -/
theorem C3_one_row_per_query_witness :
    (run ⟨["example.com"], ["s1", "s2"], true⟩ (fun _ _ => Except.ok ["x"]) (fun _ => none)
        (some ["MX", "DKIM"])).countP
        (fun row => row.Domain == "example.com" && row.RecordType == "MX") = 1 := by
  have h := (C3_one_row_per_query ⟨["example.com"], ["s1", "s2"], true⟩
    (fun _ _ => Except.ok ["x"]) (fun _ => none) (some ["MX", "DKIM"])).2.1
    "example.com" "MX" (by decide)
  rw [h]
  decide

/-- C8: For the DKIM evaluation of a single value containing "p=", the
extracted key (the text after the last "p=" up to the next ";", stripped of
surrounding whitespace) determines the key-length finding: length < 160
forces severity CRITICAL; length in [160, 300) forces severity at least
WARN; length >= 300 adds no key-length issue (no "Chiave DKIM" text). -/
theorem C8_dkim_key_length (ipPriv : String → Option Bool) (v : String)
    (hp : containsS "p=" v = true) :
    ((dkimKeyPart v).length < 160 →
      (checkBestPractices ipPriv "DKIM" [v]).1 = "CRITICAL")
    ∧ (160 ≤ (dkimKeyPart v).length → (dkimKeyPart v).length < 300 →
      severityRank "WARN" ≤ severityRank (checkBestPractices ipPriv "DKIM" [v]).1)
    ∧ (300 ≤ (dkimKeyPart v).length →
      containsS "Chiave" (checkBestPractices ipPriv "DKIM" [v]).2 = false) := by
  have hplow : containsS "p=" (lowerS v) = true := containsS_lowerS_p v hp
  unfold checkBestPractices
  rw [joinS_single]
  simp only [hp, hplow, Bool.not_true, String.reduceEq, reduceIte, List.foldl_cons,
    List.foldl_nil, List.nil_append]
  by_cases hb : containsS "k=rsa" (lowerS v) = true
  · simp only [hb, Bool.not_true]
    rw [if_neg (show ¬([v].length > 1) by simp)]
    refine ⟨?_, ?_, ?_⟩
    · intro h160
      rw [if_pos h160]
    · intro h160 h300
      rw [if_neg (show ¬((dkimKeyPart v).length < 160) by omega), if_pos h300]
      decide
    · intro h300
      rw [if_neg (show ¬((dkimKeyPart v).length < 160) by omega),
        if_neg (show ¬((dkimKeyPart v).length < 300) by omega)]
      decide
  · have hb2 : containsS "k=rsa" (lowerS v) = false := by simpa using hb
    simp only [hb2, Bool.not_false]
    rw [if_neg (show ¬([v].length > 1) by simp)]
    refine ⟨?_, ?_, ?_⟩
    · intro h160
      rw [if_pos h160]
    · intro h160 h300
      rw [if_neg (show ¬((dkimKeyPart v).length < 160) by omega), if_pos h300]
      decide
    · intro h300
      rw [if_neg (show ¬((dkimKeyPart v).length < 160) by omega),
        if_neg (show ¬((dkimKeyPart v).length < 300) by omega)]
      decide

/-- Witness for C8 at a concrete input with a short key. -/
theorem C8_dkim_key_length_witness :
    containsS "p=" "v=DKIM1; k=rsa; p=abc" = true
    ∧ ((dkimKeyPart "v=DKIM1; k=rsa; p=abc").length < 160 →
        (checkBestPractices (fun _ => none) "DKIM" ["v=DKIM1; k=rsa; p=abc"]).1
          = "CRITICAL") :=
  ⟨by decide, (C8_dkim_key_length (fun _ => none) "v=DKIM1; k=rsa; p=abc" (by decide)).1⟩

end DnsAnalyzer


















